import Mathlib

/-!
Verification of the POS transaction engine of this repository.

The repository ships three parallel single-file variants of the same
point-of-sale application:
  * the "Simple POS" variant (src/unnamed/part_000),
  * the "MNL" variant (first document of src/unnamed/part_001, lines 1-655),
  * the "NovaPOS" variant (second document of src/unnamed/part_001, lines 656-1273).

JavaScript numbers are modelled as rationals (ℚ); `Number(x) || d` coercion of
possibly-empty free-text input is modelled with `Option ℚ` (`none` = empty /
non-numeric input; a `type="number"` input yields a numeric string or `""`,
and `Number("") = 0`).  Dates are modelled as millisecond timestamps in ℚ.
-/

namespace POS

/-- `Math.ceil` on a rational. -/
def ceilQ (x : ℚ) : ℤ := ⌈x⌉

/-- `Math.round(x)` (half rounds toward +∞, i.e. floor (x + 1/2)). -/
def roundJS (x : ℚ) : ℚ := (⌊x + 1/2⌋ : ℤ)

/-- `Number(x) || 0` on an optional numeric input (`none` = empty/non-numeric). -/
def numOr0 (x : Option ℚ) : ℚ := x.getD 0

/-- JavaScript `x || d` for an optional numeric value: falsy (`none` or `0`) falls back to `d`. -/
def jsOr (x : Option ℚ) (d : ℚ) : ℚ :=
  match x with
  | none => d
  | some q => if q = 0 then d else q

/-- A catalog product (the Simple POS variant carries no expiry field: `expiry = none`). -/
structure Product where
  id : String
  sku : String
  name : String
  category : String
  price : ℚ
  stock : ℚ
  expiry : Option ℚ
deriving DecidableEq, Repr

/-- A cart line: name/price are denormalized at add-time. -/
structure CartLine where
  id : String
  name : String
  price : ℚ
  qty : ℚ
deriving DecidableEq, Repr

/-- Milliseconds per day, the divisor used by `daysUntil`. -/
def msPerDay : ℚ := 86400000

/-- `daysUntil(iso)`: `Math.ceil((expiry − now)/86400000)`; `none` (no expiry) means +∞. -/
def daysUntil (expiry : Option ℚ) (now : ℚ) : Option ℤ :=
  expiry.map (fun d => ceilQ ((d - now) / msPerDay))

/-- `isExpired(iso) = daysUntil(iso) < 0` (`Infinity < 0` is false for a missing expiry). -/
def isExpired (expiry : Option ℚ) (now : ℚ) : Bool :=
  match daysUntil expiry now with
  | none => false
  | some k => decide (k < 0)

/-- `inv.find(p => p.id === id)`. -/
def findProduct (inv : List Product) (id : String) : Option Product :=
  inv.find? (fun p => p.id == id)

/-- Quantity of product `id` already in the cart: `cart.find(x => x.id === id)?.qty || 0`. -/
def qtyInCart (cart : List CartLine) (id : String) : ℚ :=
  ((cart.find? (fun x => x.id == id)).map CartLine.qty).getD 0

/-- Error outcomes surfaced to the operator as alert dialogs. -/
inductive CartError where
  | expiredProduct
  | insufficientStock
deriving DecidableEq, Repr

/-- Increment the quantity of the first cart line with the given id (JS `findIndex` update). -/
def bumpFirst (id : String) : List CartLine → List CartLine
  | [] => []
  | x :: xs => if x.id == id then { x with qty := x.qty + 1 } :: xs else x :: bumpFirst id xs

/-- `addToCart` of the MNL variant (part_001 lines 105-114) and the NovaPOS variant
(part_001 lines 777-786): expiry check, then stock check against the clicked product,
then increment-or-insert.  On failure the cart is returned unchanged. -/
def addToCartFull (p : Product) (cart : List CartLine) (now : ℚ) :
    List CartLine × Option CartError :=
  if isExpired p.expiry now then (cart, some .expiredProduct)
  else if qtyInCart cart p.id + 1 > p.stock then (cart, some .insufficientStock)
  else if (cart.find? (fun x => x.id == p.id)).isSome then (bumpFirst p.id cart, none)
  else (cart ++ [⟨p.id, p.name, p.price, 1⟩], none)

/-- `addToCart` of the Simple POS variant (part_000 lines 79-89): no expiry check,
no stock check; unconditionally increments or inserts. -/
def addToCartSimple (p : Product) (cart : List CartLine) : List CartLine :=
  if (cart.find? (fun x => x.id == p.id)).isSome then bumpFirst p.id cart
  else cart ++ [⟨p.id, p.name, p.price, 1⟩]

/-- `updQty` of the MNL variant (part_001 lines 115-120):
`qty = Math.max(1, Number(qty) || 1)`, stock check against the catalog when the
product is found, otherwise the cart is updated directly. -/
def updQtyMNL (inv : List Product) (id : String) (q : Option ℚ) (cart : List CartLine) :
    List CartLine × Option CartError :=
  let qty := max 1 (jsOr q 1)
  match findProduct inv id with
  | some p =>
      if qty > p.stock then (cart, some .insufficientStock)
      else (cart.map (fun x => if x.id == id then { x with qty := qty } else x), none)
  | none => (cart.map (fun x => if x.id == id then { x with qty := qty } else x), none)

/-- `updateQty` of the NovaPOS variant (part_001 lines 787-792):
`qty = Math.max(1, qty)` then the same stock check as MNL. -/
def updateQtyNova (inv : List Product) (id : String) (q : ℚ) (cart : List CartLine) :
    List CartLine × Option CartError :=
  let qty := max 1 q
  match findProduct inv id with
  | some p =>
      if qty > p.stock then (cart, some .insufficientStock)
      else (cart.map (fun x => if x.id == id then { x with qty := qty } else x), none)
  | none => (cart.map (fun x => if x.id == id then { x with qty := qty } else x), none)

/-- `updateQty` of the Simple POS variant (part_000 lines 91-93): clamps to a minimum
of 1 and always succeeds; no stock check at all. -/
def updateQtySimple (id : String) (q : ℚ) (cart : List CartLine) : List CartLine :=
  cart.map (fun x => if x.id == id then { x with qty := max 1 q } else x)

/-- `removeFromCart` (identical in all three variants). -/
def removeFromCart (id : String) (cart : List CartLine) : List CartLine :=
  cart.filter (fun x => x.id != id)

/-- `clearCart` (identical in all three variants). -/
def clearCart (_cart : List CartLine) : List CartLine := []

/-- The four derived pricing figures. -/
structure Totals where
  sub : ℚ
  discAmt : ℚ
  taxAmt : ℚ
  total : ℚ
deriving DecidableEq, Repr

/-- `Σ price × qty` over the cart, as the JS `reduce` computes it. -/
def subtotal (cart : List CartLine) : ℚ :=
  cart.foldl (fun acc x => acc + x.price * x.qty) 0

/-- Totals of the MNL variant (part_001 lines 125-130): note taxable amount is
`sub − d` with NO clamp at zero; `total = sub − d + tax`. -/
def totalsMNL (cart : List CartLine) (discount vat : Option ℚ) : Totals :=
  let sub0 := subtotal cart
  let d := sub0 * numOr0 discount / 100
  let tx := (sub0 - d) * numOr0 vat / 100
  ⟨sub0, d, tx, sub0 - d + tx⟩

/-- Totals of the NovaPOS variant (part_001 lines 797-803) and, identically, the
Simple POS variant (part_000 lines 98-104): taxable amount is `max(0, sub − d)`. -/
def totalsNova (cart : List CartLine) (discountPct taxRate : Option ℚ) : Totals :=
  let sub := subtotal cart
  let d := sub * numOr0 discountPct / 100
  let txbl := max 0 (sub - d)
  let t := txbl * numOr0 taxRate / 100
  ⟨sub, d, t, txbl + t⟩

/-- `canCheckout` of the MNL variant (part_001 lines 137-143) and the NovaPOS variant
(part_001 lines 829-835): non-empty cart, every line re-validated against the
catalog (existence, stock, expiry), and cash sufficiency for cash payments. -/
def canCheckoutFull (inv : List Product) (cart : List CartLine) (method : String)
    (cash : Option ℚ) (total : ℚ) (now : ℚ) : Bool :=
  !cart.isEmpty &&
    cart.all (fun it =>
      match findProduct inv it.id with
      | some p => decide (it.qty ≤ p.stock) && !isExpired p.expiry now
      | none => false) &&
    (method != "Cash" || decide (numOr0 cash ≥ total))

/-- `canCheckout` of the Simple POS variant (part_000 lines 123-125): only
non-emptiness and the cash condition; no catalog re-validation. -/
def canCheckoutSimple (cart : List CartLine) (method : String) (cash : Option ℚ)
    (total : ℚ) : Bool :=
  !cart.isEmpty && (method != "Cash" || decide (numOr0 cash ≥ total))

/-- Change due, MNL variant (part_001 line 135): `Math.max(0, Number(cash || 0) - total)`
for cash, `0` otherwise — no rounding step. -/
def changeMNL (method : String) (cash : Option ℚ) (total : ℚ) : ℚ :=
  if method != "Cash" then 0 else max 0 (jsOr cash 0 - total)

/-- Change due, NovaPOS variant (part_001 lines 808-812) and Simple POS variant
(part_000 lines 106-110): `Math.max(0, Math.round((Number(cash) - total) * 100) / 100)`
for cash, `0` otherwise. -/
def changeRounded (method : String) (cash : Option ℚ) (total : ℚ) : ℚ :=
  if method != "Cash" then 0 else max 0 (roundJS ((numOr0 cash - total) * 100) / 100)

/-- Inventory deduction of the MNL `completeSale` (part_001 lines 151-154):
`stock: Math.max(0, p.stock - it.qty)` — silently clamps at zero. -/
def deductMNL (inv : List Product) (cart : List CartLine) : List Product :=
  inv.map (fun p =>
    match cart.find? (fun c => c.id == p.id) with
    | some it => { p with stock := max 0 (p.stock - it.qty) }
    | none => p)

/-- Inventory deduction of the NovaPOS `completeSale` (part_001 lines 838-842):
`stock: p.stock - item.qty` — unchecked, may go negative. -/
def deductNova (inv : List Product) (cart : List CartLine) : List Product :=
  inv.map (fun p =>
    match cart.find? (fun c => c.id == p.id) with
    | some it => { p with stock := p.stock - it.qty }
    | none => p)

/-- Receipt snapshot (time-based id and formatted timestamp elided; only the fields
the invariants talk about).  `cash`/`change` are `none` ("null") for non-cash sales. -/
structure Receipt where
  items : List CartLine
  sub : ℚ
  discAmt : ℚ
  taxAmt : ℚ
  total : ℚ
  method : String
  cash : Option ℚ
  change : Option ℚ
deriving DecidableEq, Repr

/-- The mutable state the cart handlers close over: the persisted inventory and the cart. -/
structure POSState where
  inv : List Product
  cart : List CartLine
deriving DecidableEq, Repr

/-- `completeSale` of the MNL variant (part_001 lines 149-170): deducts inventory
unconditionally (with the `Math.max(0, ...)` clamp), builds the receipt, clears the
cart.  There is no eligibility re-check inside the function. -/
def completeSaleMNL (s : POSState) (discount vat : Option ℚ) (method : String)
    (cash : Option ℚ) : POSState × Receipt :=
  let t := totalsMNL s.cart discount vat
  ({ inv := deductMNL s.inv s.cart, cart := [] },
   { items := s.cart, sub := t.sub, discAmt := t.discAmt, taxAmt := t.taxAmt,
     total := t.total, method := method,
     cash := if method == "Cash" then some (numOr0 cash) else none,
     change := if method == "Cash" then some (changeMNL method cash t.total) else none })

/-- `completeSale` of the NovaPOS variant (part_001 lines 837-864): unchecked
deduction, receipt, cart cleared.  No eligibility re-check inside the function. -/
def completeSaleNova (s : POSState) (discount vat : Option ℚ) (method : String)
    (cash : Option ℚ) : POSState × Receipt :=
  let t := totalsNova s.cart discount vat
  ({ inv := deductNova s.inv s.cart, cart := [] },
   { items := s.cart, sub := t.sub, discAmt := t.discAmt, taxAmt := t.taxAmt,
     total := t.total, method := method,
     cash := if method == "Cash" then some (numOr0 cash) else none,
     change := if method == "Cash" then some (changeRounded method cash t.total) else none })

/-- `completeSale` of the Simple POS variant (part_000 lines 127-148): builds the
receipt and clears the cart but performs NO inventory write at all (`products` has
no setter in that file), so the catalog passes through unchanged. -/
def completeSaleSimple (s : POSState) (discount vat : Option ℚ) (method : String)
    (cash : Option ℚ) : POSState × Receipt :=
  let t := totalsNova s.cart discount vat
  ({ inv := s.inv, cart := [] },
   { items := s.cart, sub := t.sub, discAmt := t.discAmt, taxAmt := t.taxAmt,
     total := t.total, method := method,
     cash := if method == "Cash" then some (numOr0 cash) else none,
     change := if method == "Cash" then some (changeRounded method cash t.total) else none })

/-- The MNL/NovaPOS `addToCart` handler as a state transformer: it only ever calls
`setCart`, never the inventory setter. -/
def stAddFull (s : POSState) (p : Product) (now : ℚ) : POSState × Option CartError :=
  let r := addToCartFull p s.cart now
  ({ s with cart := r.1 }, r.2)

/-- The Simple POS `addToCart` handler as a state transformer. -/
def stAddSimple (s : POSState) (p : Product) : POSState :=
  { s with cart := addToCartSimple p s.cart }

/-- The MNL `updQty` handler as a state transformer (reads `inv`, writes only `cart`). -/
def stUpdQtyMNL (s : POSState) (id : String) (q : Option ℚ) : POSState × Option CartError :=
  let r := updQtyMNL s.inv id q s.cart
  ({ s with cart := r.1 }, r.2)

/-- The NovaPOS `updateQty` handler as a state transformer. -/
def stUpdateQtyNova (s : POSState) (id : String) (q : ℚ) : POSState × Option CartError :=
  let r := updateQtyNova s.inv id q s.cart
  ({ s with cart := r.1 }, r.2)

/-- The Simple POS `updateQty` handler as a state transformer. -/
def stUpdateQtySimple (s : POSState) (id : String) (q : ℚ) : POSState :=
  { s with cart := updateQtySimple id q s.cart }

/-- The `removeFromCart` handler as a state transformer (identical in all variants). -/
def stRemove (s : POSState) (id : String) : POSState :=
  { s with cart := removeFromCart id s.cart }

/-- The `clearCart` handler as a state transformer (identical in all variants). -/
def stClear (s : POSState) : POSState :=
  { s with cart := clearCart s.cart }

/-! ## Shared helper lemmas -/

lemma foldl_add_map_sum (f : CartLine → ℚ) (l : List CartLine) (a : ℚ) :
    l.foldl (fun acc x => acc + f x) a = a + (l.map f).sum := by
  induction l generalizing a with
  | nil => simp
  | cons x xs ih => simp only [List.foldl_cons, List.map_cons, List.sum_cons, ih]; ring

lemma subtotal_eq_sum (cart : List CartLine) :
    subtotal cart = (cart.map (fun x => x.price * x.qty)).sum := by
  simpa using foldl_add_map_sum (fun x => x.price * x.qty) cart 0

lemma notEmpty_iff (cart : List CartLine) : (!cart.isEmpty) = true ↔ cart ≠ [] := by
  cases cart <;> simp

lemma cashClause_iff (method : String) (cash : Option ℚ) (total : ℚ) :
    ((method != "Cash") || decide (numOr0 cash ≥ total)) = true ↔
      (method = "Cash" → numOr0 cash ≥ total) := by
  by_cases hm : method = "Cash" <;> simp [hm]

/-! ## C1 — pricing equations -/

/-- The pricing equations exactly as claim C1 words them (taxable amount clamped
at zero, settings already coerced with missing/invalid treated as zero). -/
def ClaimPricing (cart : List CartLine) (dp tp : ℚ) (t : Totals) : Prop :=
  t.sub = (cart.map (fun x => x.price * x.qty)).sum ∧
  t.discAmt = t.sub * dp / 100 ∧
  t.taxAmt = max 0 (t.sub - t.discAmt) * tp / 100 ∧
  t.total = max 0 (t.sub - t.discAmt) + t.taxAmt

/-- C1 (amended): the NovaPOS/Simple pricing computation satisfies the claimed
equations for every cart and every discount/tax setting; the MNL computation omits
the `max(0, ·)` clamp on the taxable amount and satisfies the claimed equations
exactly when the discount amount does not exceed the subtotal (in particular for
any discount percentage between 0 and 100 on a nonnegative subtotal). -/
theorem c1_pricing_equations (cart : List CartLine) (d v : Option ℚ) :
    ClaimPricing cart (numOr0 d) (numOr0 v) (totalsNova cart d v) ∧
    ((totalsMNL cart d v).discAmt ≤ (totalsMNL cart d v).sub →
      ClaimPricing cart (numOr0 d) (numOr0 v) (totalsMNL cart d v)) := by
  constructor
  · exact ⟨subtotal_eq_sum cart, rfl, rfl, rfl⟩
  · intro h
    have hmax : max 0 ((totalsMNL cart d v).sub - (totalsMNL cart d v).discAmt)
        = (totalsMNL cart d v).sub - (totalsMNL cart d v).discAmt :=
      max_eq_right (by linarith)
    exact ⟨subtotal_eq_sum cart, rfl, by rw [hmax]; rfl, by rw [hmax]; rfl⟩

/-- C1 witness: the amended MNL clause instantiated at the spec's worked example
(one line of 5 × 120 with a 10% discount and 12% VAT). -/
theorem c1_pricing_equations_witness :
    ClaimPricing [⟨"GRC-002", "Eggs (dozen)", 120, 5⟩] (numOr0 (some 10)) (numOr0 (some 12))
      (totalsMNL [⟨"GRC-002", "Eggs (dozen)", 120, 5⟩] (some 10) (some 12)) := by
  apply (c1_pricing_equations [⟨"GRC-002", "Eggs (dozen)", 120, 5⟩] (some 10) (some 12)).2
  simp [totalsMNL, subtotal, numOr0]
  norm_num

/-- C1 counterexample: with discountPct = 200 (reachable: the settings inputs and
persisted settings are not range-checked) the MNL totals violate the claimed
equations — the taxable amount is not clamped at zero, so `taxAmt = -12 ≠ 0`. -/
theorem c1_counterexample :
    ¬ ClaimPricing [⟨"A", "A", 100, 1⟩] (numOr0 (some 200)) (numOr0 (some 12))
        (totalsMNL [⟨"A", "A", 100, 1⟩] (some 200) (some 12)) := by
  intro h
  have h3 := h.2.2.1
  simp [totalsMNL, subtotal, numOr0] at h3
  norm_num at h3

/-! ## C2 — checkout eligibility -/

/-- Per-line validity as claim C2 words it: the referenced product exists, has
enough stock for the line, and is not expired. -/
def LineOK (inv : List Product) (now : ℚ) (it : CartLine) : Prop :=
  ∃ p, findProduct inv it.id = some p ∧ it.qty ≤ p.stock ∧ isExpired p.expiry now = false

/-- Checkout eligibility exactly as claim C2 words it. -/
def ClaimCanCheckout (inv : List Product) (cart : List CartLine) (method : String)
    (cash : Option ℚ) (total now : ℚ) : Prop :=
  cart ≠ [] ∧ (∀ it ∈ cart, LineOK inv now it) ∧ (method = "Cash" → numOr0 cash ≥ total)

lemma line_check_iff (inv : List Product) (now : ℚ) (it : CartLine) :
    ((match findProduct inv it.id with
      | some p => decide (it.qty ≤ p.stock) && !isExpired p.expiry now
      | none => false) = true) ↔ LineOK inv now it := by
  unfold LineOK
  cases h : findProduct inv it.id with
  | none => simp [h]
  | some p => simp [h]

/-- C2 (amended): the MNL/NovaPOS `canCheckout` is true exactly under the claimed
conditions; the Simple POS variant's `canCheckout` checks only cart non-emptiness
and the cash condition, with no catalog re-validation. -/
theorem c2_canCheckout_iff (inv : List Product) (cart : List CartLine) (method : String)
    (cash : Option ℚ) (total now : ℚ) :
    (canCheckoutFull inv cart method cash total now = true ↔
      ClaimCanCheckout inv cart method cash total now) ∧
    (canCheckoutSimple cart method cash total = true ↔
      (cart ≠ [] ∧ (method = "Cash" → numOr0 cash ≥ total))) := by
  constructor
  · unfold canCheckoutFull ClaimCanCheckout
    rw [Bool.and_eq_true, Bool.and_eq_true, notEmpty_iff, cashClause_iff, List.all_eq_true]
    constructor
    · rintro ⟨⟨h1, h2⟩, h3⟩
      exact ⟨h1, fun it hit => (line_check_iff inv now it).mp (h2 it hit), h3⟩
    · rintro ⟨h1, h2, h3⟩
      exact ⟨⟨h1, fun it hit => (line_check_iff inv now it).mpr (h2 it hit)⟩, h3⟩
  · unfold canCheckoutSimple
    rw [Bool.and_eq_true, notEmpty_iff, cashClause_iff]

/-- C2 counterexample: with a catalog holding 3 units of product A and a cart line
asking for 5, the Simple POS `canCheckout` still answers true (it never consults
the catalog), while the claimed condition is false. -/
theorem c2_counterexample :
    canCheckoutSimple [⟨"A", "A", 10, 5⟩] "Card" none 0 = true ∧
    ¬ ClaimCanCheckout [⟨"A", "S", "N", "C", 10, 3, none⟩] [⟨"A", "A", 10, 5⟩]
        "Card" none 0 0 := by
  constructor
  · rfl
  · rintro ⟨-, h, -⟩
    obtain ⟨p, hp, hq, -⟩ := h ⟨"A", "A", 10, 5⟩ (by simp)
    simp [findProduct, List.find?] at hp
    rw [← hp] at hq
    norm_num at hq

/-! ## C3 — completeSale performs no eligibility re-check -/

/-- C3 (code-bug evidence): in a state where `canCheckout` is false (the single
cart line asks for 5 units but the catalog holds only 3), neither `completeSale`
implementation fails — both still mutate the catalog (MNL clamps the stock to 0,
NovaPOS drives it to −2).  The only guard in the code is the disabled UI button. -/
theorem c3_completeSale_mutates_when_ineligible :
    canCheckoutFull [⟨"A", "S", "N", "C", 10, 3, none⟩] [⟨"A", "A", 10, 5⟩]
        "Card" none 0 0 = false ∧
    (completeSaleMNL ⟨[⟨"A", "S", "N", "C", 10, 3, none⟩], [⟨"A", "A", 10, 5⟩]⟩
        none none "Card" none).1.inv = [⟨"A", "S", "N", "C", 10, 0, none⟩] ∧
    (completeSaleNova ⟨[⟨"A", "S", "N", "C", 10, 3, none⟩], [⟨"A", "A", 10, 5⟩]⟩
        none none "Card" none).1.inv = [⟨"A", "S", "N", "C", 10, -2, none⟩] := by
  refine ⟨by decide, ?_, ?_⟩
  · simp [completeSaleMNL, deductMNL]
    norm_num
  · simp [completeSaleNova, deductNova]
    norm_num

/-! ## C5 — the committer silently clamps (MNL) or goes negative (NovaPOS) -/

/-- C5 (code-bug evidence): committing a cart line whose quantity (5) exceeds the
current stock (3) does not fail with any `InvalidState` error — the MNL committer
silently floors the stock at 0 via `Math.max(0, stock − qty)` and the NovaPOS
committer stores the negative stock −2. -/
theorem c5_committer_never_fails :
    deductMNL [⟨"B", "S", "N", "C", 10, 3, none⟩] [⟨"B", "B", 10, 5⟩]
        = [⟨"B", "S", "N", "C", 10, 0, none⟩] ∧
    deductNova [⟨"B", "S", "N", "C", 10, 3, none⟩] [⟨"B", "B", 10, 5⟩]
        = [⟨"B", "S", "N", "C", 10, -2, none⟩] := by
  constructor
  · simp [deductMNL]
    norm_num
  · simp [deductNova]
    norm_num

/-! ## C4 — stock deduction on an eligible sale -/

lemma findProduct_of_mem (inv : List Product) (p : Product)
    (hmem : p ∈ inv) (hnd : (inv.map Product.id).Nodup) : findProduct inv p.id = some p := by
  induction inv with
  | nil => cases hmem
  | cons q rest ih =>
    rw [List.map_cons, List.nodup_cons] at hnd
    rcases List.mem_cons.mp hmem with rfl | hmem'
    · simp [findProduct, List.find?]
    · by_cases hq : (q.id == p.id) = true
      · exfalso
        have hqe : q.id = p.id := by simpa using hq
        exact hnd.1 (hqe ▸ List.mem_map_of_mem Product.id hmem')
      · simpa [findProduct, List.find?, hq] using ih hmem' hnd.2

lemma canCheckoutFull_lines (inv : List Product) (cart : List CartLine) (method : String)
    (cash : Option ℚ) (total now : ℚ)
    (h : canCheckoutFull inv cart method cash total now = true) :
    ∀ it ∈ cart, LineOK inv now it := by
  unfold canCheckoutFull at h
  rw [Bool.and_eq_true, Bool.and_eq_true, List.all_eq_true] at h
  exact fun it hit => (line_check_iff inv now it).mp (h.1.2 it hit)

lemma qty_le_stock_of_find (inv : List Product) (cart : List CartLine) (method : String)
    (cash : Option ℚ) (total now : ℚ)
    (hnd : (inv.map Product.id).Nodup)
    (h : canCheckoutFull inv cart method cash total now = true)
    (p : Product) (hp : p ∈ inv) (it : CartLine)
    (hfind : cart.find? (fun c => c.id == p.id) = some it) : it.qty ≤ p.stock := by
  have hmem : it ∈ cart := List.mem_of_find?_eq_some hfind
  have hid : it.id = p.id := by simpa using List.find?_some hfind
  obtain ⟨q, hq, hle, -⟩ := canCheckoutFull_lines inv cart method cash total now h it hmem
  rw [hid, findProduct_of_mem inv p hp hnd] at hq
  cases hq
  exact hle

/-- C4 (amended): on any eligible sale (`canCheckout` true, catalog ids unique),
the MNL and NovaPOS deductions agree and, product by product, a product matched by
a cart line ends with `stock − qty ≥ 0` while an unmatched product is unchanged;
the Simple POS variant's `completeSale` performs no inventory deduction at all. -/
theorem c4_stock_deduction (inv : List Product) (cart : List CartLine) (method : String)
    (cash : Option ℚ) (total now : ℚ)
    (hnd : (inv.map Product.id).Nodup)
    (h : canCheckoutFull inv cart method cash total now = true) :
    deductMNL inv cart = deductNova inv cart ∧
    List.Forall₂ (fun p p' =>
      (∀ it, cart.find? (fun c => c.id == p.id) = some it →
        p' = { p with stock := p.stock - it.qty } ∧ 0 ≤ p'.stock) ∧
      (cart.find? (fun c => c.id == p.id) = none → p' = p))
      inv (deductNova inv cart) ∧
    (completeSaleSimple ⟨inv, cart⟩ none none method cash).1.inv = inv := by
  refine ⟨?_, ?_, rfl⟩
  · unfold deductMNL deductNova
    apply List.map_congr_left
    intro p hp
    cases hfind : cart.find? (fun c => c.id == p.id) with
    | none => rfl
    | some it =>
      have hle := qty_le_stock_of_find inv cart method cash total now hnd h p hp it hfind
      have hmax : max 0 (p.stock - it.qty) = p.stock - it.qty := max_eq_right (by linarith)
      exact congrArg (fun s => { p with stock := s }) hmax
  · unfold deductNova
    rw [List.forall₂_map_right_iff, List.forall₂_same]
    intro p hp
    cases hfind : cart.find? (fun c => c.id == p.id) with
    | none =>
      refine ⟨fun it hit => ?_, fun _ => rfl⟩
      cases hit
    | some it =>
      have hle := qty_le_stock_of_find inv cart method cash total now hnd h p hp it hfind
      refine ⟨fun it' hit' => ?_, fun hnone => by cases hnone⟩
      cases hit'
      exact ⟨rfl, by simpa using sub_nonneg.mpr hle⟩

/-- C4 witness: a two-product catalog, an eligible cart buying 2 of 3 units of "A". -/
theorem c4_stock_deduction_witness :
    deductMNL [⟨"A", "S", "N", "C", 10, 3, none⟩, ⟨"B", "T", "M", "C", 20, 7, none⟩]
        [⟨"A", "A", 10, 2⟩]
      = deductNova [⟨"A", "S", "N", "C", 10, 3, none⟩, ⟨"B", "T", "M", "C", 20, 7, none⟩]
        [⟨"A", "A", 10, 2⟩] ∧
    List.Forall₂ (fun p p' =>
      (∀ it, [(⟨"A", "A", 10, 2⟩ : CartLine)].find? (fun c => c.id == p.id) = some it →
        p' = { p with stock := p.stock - it.qty } ∧ 0 ≤ p'.stock) ∧
      ([(⟨"A", "A", 10, 2⟩ : CartLine)].find? (fun c => c.id == p.id) = none → p' = p))
      [⟨"A", "S", "N", "C", 10, 3, none⟩, ⟨"B", "T", "M", "C", 20, 7, none⟩]
      (deductNova [⟨"A", "S", "N", "C", 10, 3, none⟩, ⟨"B", "T", "M", "C", 20, 7, none⟩]
        [⟨"A", "A", 10, 2⟩]) ∧
    (completeSaleSimple
        ⟨[⟨"A", "S", "N", "C", 10, 3, none⟩, ⟨"B", "T", "M", "C", 20, 7, none⟩],
         [⟨"A", "A", 10, 2⟩]⟩ none none "Card" none).1.inv
      = [⟨"A", "S", "N", "C", 10, 3, none⟩, ⟨"B", "T", "M", "C", 20, 7, none⟩] :=
  c4_stock_deduction _ _ "Card" none 0 0 (by decide) (by decide)

/-- C4 counterexample: the Simple POS `completeSale` (part_000 lines 127-148) leaves
the catalog untouched even for an eligible sale of 2 units, so the sold line's
stock stays 3 instead of dropping to 1. -/
theorem c4_counterexample :
    canCheckoutSimple [⟨"C", "C", 10, 2⟩] "Card" none 0 = true ∧
    (completeSaleSimple ⟨[⟨"C", "S", "N", "C", 10, 3, none⟩], [⟨"C", "C", 10, 2⟩]⟩
        none none "Card" none).1.inv = [⟨"C", "S", "N", "C", 10, 3, none⟩] ∧
    (3 : ℚ) ≠ 3 - 2 := by
  refine ⟨rfl, rfl, by norm_num⟩

/-! ## C6 — adding an expired product -/

/-- C6 (amended): in the MNL and NovaPOS variants, adding an expired product always
fails with `ExpiredProduct` regardless of stock, leaving the cart exactly as it was;
the Simple POS variant performs no expiry check and inserts the product as usual. -/
theorem c6_expired_add_fails (p : Product) (cart : List CartLine) (now : ℚ)
    (h : isExpired p.expiry now = true) :
    addToCartFull p cart now = (cart, some .expiredProduct) ∧
    addToCartSimple p [] = [⟨p.id, p.name, p.price, 1⟩] := by
  constructor
  · simp [addToCartFull, h]
  · rfl

lemma ten_days_past_expired : isExpired (some (-864000000)) 0 = true := by
  simp only [isExpired, daysUntil, ceilQ, msPerDay, Option.map_some']
  rw [decide_eq_true_iff]
  have h : ⌈((-864000000 : ℚ) - 0) / 86400000⌉ ≤ -1 := Int.ceil_le.mpr (by norm_num)
  omega

/-- C6 witness: a product expired ten days ago (expiry at −864000000 ms, now = 0)
with plentiful stock is rejected by the MNL/NovaPOS add. -/
theorem c6_expired_add_fails_witness :
    addToCartFull ⟨"X", "S", "N", "C", 10, 50, some (-864000000)⟩ [] 0
        = ([], some .expiredProduct) ∧
    addToCartSimple ⟨"X", "S", "N", "C", 10, 50, some (-864000000)⟩ []
        = [⟨"X", "N", 10, 1⟩] :=
  c6_expired_add_fails _ _ _ ten_days_past_expired

/-- C6 counterexample: the Simple POS `addToCart` (part_000 lines 79-89) happily adds
a product whose expiry is ten days in the past — the empty cart does not stay empty
and no `ExpiredProduct` failure occurs. -/
theorem c6_counterexample :
    isExpired (some (-864000000)) 0 = true ∧
    addToCartSimple ⟨"Y", "S", "N", "C", 10, 50, some (-864000000)⟩ []
        = [⟨"Y", "N", 10, 1⟩] :=
  ⟨ten_days_past_expired, rfl⟩

/-! ## C7 — adding beyond stock -/

/-- C7 (amended): in the MNL and NovaPOS variants, for a non-expired product, add
fails with `InsufficientStock` and leaves the cart unchanged whenever the quantity
of the product already in the cart plus 1 exceeds its stock; in particular a
non-expired product with stock 0 always fails (cart quantities are nonnegative).
An expired product fails earlier with `ExpiredProduct`, and the Simple POS variant
performs no stock check at all. -/
theorem c7_insufficient_add_fails (p : Product) (cart : List CartLine) (now : ℚ)
    (hexp : isExpired p.expiry now = false) :
    (p.stock < qtyInCart cart p.id + 1 →
      addToCartFull p cart now = (cart, some .insufficientStock)) ∧
    (p.stock = 0 → 0 ≤ qtyInCart cart p.id →
      addToCartFull p cart now = (cart, some .insufficientStock)) := by
  constructor
  · intro hlt
    simp [addToCartFull, hexp, hlt]
  · intro h0 hq
    have hlt : p.stock < qtyInCart cart p.id + 1 := by rw [h0]; linarith
    simp [addToCartFull, hexp, hlt]

/-- C7 witness: a fresh product with stock 0 is rejected by the MNL/NovaPOS add on
an empty cart. -/
theorem c7_insufficient_add_fails_witness :
    addToCartFull ⟨"Z", "S", "N", "C", 10, 0, none⟩ [] 0
        = ([], some .insufficientStock) :=
  (c7_insufficient_add_fails ⟨"Z", "S", "N", "C", 10, 0, none⟩ [] 0 rfl).2 rfl
    (by norm_num [qtyInCart])

/-- C7 counterexample: the Simple POS `addToCart` (part_000 lines 79-89) adds a
product with stock 0 instead of failing with `InsufficientStock`. -/
theorem c7_counterexample :
    addToCartSimple ⟨"W", "S", "N", "C", 10, 0, none⟩ [] = [⟨"W", "N", 10, 1⟩] := rfl

/-! ## C8 — updateQuantity -/

lemma maxJsOr (q : ℚ) : max 1 (jsOr (some q) 1) = max 1 q := by
  by_cases h : q = 0
  · simp [jsOr, h]
  · simp [jsOr, h]

/-- C8 (amended): in the MNL and NovaPOS variants, `updateQuantity` clamps the
request to a minimum of 1 and, when the referenced product exists, fails with
`InsufficientStock` leaving the cart (and the line's prior quantity) unchanged
whenever the clamped quantity exceeds the product's stock; otherwise it sets every
matching line to the clamped quantity.  The Simple POS variant only clamps and
never checks stock. -/
theorem c8_updateQty (inv : List Product) (id : String) (q : ℚ) (cart : List CartLine)
    (p : Product) (hp : findProduct inv id = some p) :
    (p.stock < max 1 q →
      updateQtyNova inv id q cart = (cart, some .insufficientStock) ∧
      updQtyMNL inv id (some q) cart = (cart, some .insufficientStock)) ∧
    (max 1 q ≤ p.stock →
      updateQtyNova inv id q cart
        = (cart.map (fun x => if x.id == id then { x with qty := max 1 q } else x), none) ∧
      updQtyMNL inv id (some q) cart
        = (cart.map (fun x => if x.id == id then { x with qty := max 1 q } else x), none)) := by
  constructor
  · intro hlt
    constructor
    · simp [updateQtyNova, hp, hlt]
    · simp [updQtyMNL, hp, maxJsOr, hlt]
  · intro hle
    have hnot : ¬ p.stock < max 1 q := not_lt.mpr hle
    constructor
    · simp [updateQtyNova, hp, hnot]
    · simp [updQtyMNL, hp, maxJsOr, hnot]

/-- C8 witness: with 3 units in stock and a cart line at quantity 1, requesting
quantity 5 fails with `InsufficientStock` in both full variants, leaving the line
at its prior quantity. -/
theorem c8_updateQty_witness :
    updateQtyNova [⟨"A", "S", "N", "C", 10, 3, none⟩] "A" 5 [⟨"A", "A", 10, 1⟩]
        = ([⟨"A", "A", 10, 1⟩], some .insufficientStock) ∧
    updQtyMNL [⟨"A", "S", "N", "C", 10, 3, none⟩] "A" (some 5) [⟨"A", "A", 10, 1⟩]
        = ([⟨"A", "A", 10, 1⟩], some .insufficientStock) :=
  (c8_updateQty [⟨"A", "S", "N", "C", 10, 3, none⟩] "A" 5 [⟨"A", "A", 10, 1⟩]
      ⟨"A", "S", "N", "C", 10, 3, none⟩ rfl).1
    (by rw [max_eq_right (by norm_num : (1:ℚ) ≤ 5)]; norm_num)

/-- C8 counterexample: the Simple POS `updateQty` (part_000 lines 91-93) raises the
line to quantity 5 although the referenced product's stock is 3 — no failure, cart
changed. -/
theorem c8_counterexample :
    findProduct [⟨"A", "S", "N", "C", 10, 3, none⟩] "A"
        = some ⟨"A", "S", "N", "C", 10, 3, none⟩ ∧
    (3 : ℚ) < 5 ∧
    updateQtySimple "A" 5 [⟨"A", "A", 10, 1⟩] = [⟨"A", "A", 10, 5⟩] := by
  refine ⟨rfl, by norm_num, ?_⟩
  have hmax : max (1 : ℚ) 5 = 5 := max_eq_right (by norm_num)
  simp [updateQtySimple, hmax]

/-! ## C9 — change due -/

/-- Claim C9's change formula: `max(0, round(cashGiven − total, 2))` for cash
payments, zero otherwise. -/
def claimChange (method : String) (cash : Option ℚ) (total : ℚ) : ℚ :=
  if method = "Cash" then max 0 (roundJS ((numOr0 cash - total) * 100) / 100) else 0

lemma jsOr_zero (cash : Option ℚ) : jsOr cash 0 = numOr0 cash := by
  cases cash with
  | none => rfl
  | some q =>
    by_cases h : q = 0
    · simp [jsOr, numOr0, h]
    · simp [jsOr, numOr0, h]

lemma floor_add_half (n : ℤ) : ⌊(n : ℚ) + 1/2⌋ = n := by
  rw [Int.floor_eq_iff]
  constructor
  · linarith
  · linarith

lemma roundJS_intCast (n : ℤ) : roundJS (n : ℚ) = (n : ℚ) := by
  rw [roundJS, floor_add_half]

/-- C9 (amended): the NovaPOS and Simple POS change equals the claimed
`max(0, round(cash − total, 2))` for every input; the MNL change omits the
rounding step (`max(0, cash − total)` exactly), so it matches the claim precisely
when `cash − total` round-trips through 2-decimal rounding; for every non-cash
payment all variants show change 0 and record `null` on the receipt. -/
theorem c9_change (s : POSState) (d v : Option ℚ) (method : String) (cash : Option ℚ)
    (total : ℚ) :
    changeRounded method cash total = claimChange method cash total ∧
    (roundJS ((numOr0 cash - total) * 100) / 100 = numOr0 cash - total →
      changeMNL method cash total = claimChange method cash total) ∧
    (method ≠ "Cash" →
      changeMNL method cash total = 0 ∧
      (completeSaleMNL s d v method cash).2.change = none ∧
      (completeSaleNova s d v method cash).2.change = none ∧
      (completeSaleSimple s d v method cash).2.change = none) := by
  refine ⟨?_, ?_, ?_⟩
  · unfold changeRounded claimChange
    by_cases hm : method = "Cash" <;> simp [hm]
  · intro hr
    unfold changeMNL claimChange
    by_cases hm : method = "Cash" <;> simp [hm, jsOr_zero, hr]
  · intro hm
    have hm' : (method == "Cash") = false := by simpa using hm
    exact ⟨by simp [changeMNL, hm], by simp [completeSaleMNL, hm'],
      by simp [completeSaleNova, hm'], by simp [completeSaleSimple, hm']⟩

/-- C9 witness: instantiation at a card payment (null change on all receipts) and,
for the MNL clause, at cash 700 against a total of 604 where rounding is the
identity. -/
theorem c9_change_witness :
    (changeRounded "Card" (some 700) 604 = claimChange "Card" (some 700) 604 ∧
      changeMNL "Card" (some 700) 604 = 0 ∧
      (completeSaleMNL ⟨[], []⟩ none none "Card" (some 700)).2.change = none) ∧
    changeMNL "Cash" (some 700) 604 = claimChange "Cash" (some 700) 604 := by
  have hround : roundJS ((numOr0 (some 700) - 604) * 100) / 100
      = numOr0 (some 700) - 604 := by
    rw [show ((numOr0 (some 700) - 604) * 100 : ℚ) = ((9600 : ℤ) : ℚ) by
      norm_num [numOr0], roundJS_intCast]
    norm_num [numOr0]
  refine ⟨⟨?_, ?_, ?_⟩, ?_⟩
  · exact (c9_change ⟨[], []⟩ none none "Card" (some 700) 604).1
  · exact ((c9_change ⟨[], []⟩ none none "Card" (some 700) 604).2.2 (by simp)).1
  · exact ((c9_change ⟨[], []⟩ none none "Card" (some 700) 604).2.2 (by simp)).2.1
  · exact (c9_change ⟨[], []⟩ none none "Cash" (some 700) 604).2.1 hround

/-- C9 counterexample: a reachable total of 1/8 (one line priced 0.125) paid with
cash 1: the MNL change is 0.875 while the claimed formula rounds to 0.88. -/
theorem c9_counterexample :
    (totalsMNL [⟨"A", "A", 1/8, 1⟩] none none).total = 1/8 ∧
    changeMNL "Cash" (some 1) (1/8) = 7/8 ∧
    claimChange "Cash" (some 1) (1/8) = 22/25 ∧
    (7/8 : ℚ) ≠ 22/25 := by
  refine ⟨?_, ?_, ?_, by norm_num⟩
  · simp [totalsMNL, subtotal, numOr0]
  · have hmax : max (0 : ℚ) (1 - 1/8) = 1 - 1/8 := max_eq_right (by norm_num)
    simp [changeMNL, jsOr, hmax]
    norm_num
  · have : ((numOr0 (some 1) - 1/8) * 100 : ℚ) = 175/2 := by norm_num [numOr0]
    rw [claimChange, if_pos rfl, this, roundJS,
      show (175/2 : ℚ) + 1/2 = ((88 : ℤ) : ℚ) by norm_num, Int.floor_intCast]
    rw [max_eq_right (by norm_num : (0:ℚ) ≤ (88:ℤ) / 100)]
    norm_num

/-! ## C10 — cart operations never touch the catalog -/

/-- C10: every cart handler — add, update-quantity, remove, clear, in all three
variants — leaves the inventory component of the state untouched, whether it
succeeds or fails; only `completeSale` (and the admin inventory editors) write it. -/
theorem c10_cart_ops_preserve_catalog (s : POSState) (p : Product) (now : ℚ)
    (id : String) (oq : Option ℚ) (q : ℚ) :
    (stAddFull s p now).1.inv = s.inv ∧
    (stAddSimple s p).inv = s.inv ∧
    (stUpdQtyMNL s id oq).1.inv = s.inv ∧
    (stUpdateQtyNova s id q).1.inv = s.inv ∧
    (stUpdateQtySimple s id q).inv = s.inv ∧
    (stRemove s id).inv = s.inv ∧
    (stClear s).inv = s.inv :=
  ⟨rfl, rfl, rfl, rfl, rfl, rfl, rfl⟩

end POS
